import Mathlib

set_option maxHeartbeats 1000000

namespace Radynstruct

/-!
Shallow embedding of the template-driven extraction pipeline of the
radynstruct repository: the schema compiler, prompt builder, provider
adapters and orchestrator of `src/backend/app/services/ai_service.py`,
the provider-resolution logic over `src/backend/app/core/config.py`
settings, and the batch-creation endpoint of
`src/backend/app/api/reports.py`.
-/

/-- Python values as they appear in a template `structure` (JSON-shaped
data). `vdict` carries a `Nat` identity modelling CPython object identity
`id(...)`: two structurally equal dicts may have distinct identities, and
the schema compiler uses the identity in generated nested model names. -/
inductive PyValue where
  | vnone : PyValue
  | vbool : Bool → PyValue
  | vint : Int → PyValue
  | vstr : String → PyValue
  | vlist : List PyValue → PyValue
  | vdict : Nat → List (String × PyValue) → PyValue
deriving Repr

/-- Python `k in d` on a dict, over the entry list of the dict. -/
def hasKey (entries : List (String × PyValue)) (k : String) : Bool :=
  entries.any (fun p => p.1 == k)

/-- Python `d[k]` / `d.get(k)` on a dict: value of the first entry with key `k`. -/
def dictGet (entries : List (String × PyValue)) (k : String) : Option PyValue :=
  (entries.find? (fun p => p.1 == k)).map Prod.snd

/-- Python `isinstance(v, dict)`. -/
def isDict : PyValue → Bool
  | .vdict _ _ => true
  | _ => false

/-- A compiled pydantic field. `optStrField dflt desc` models the pair
`(Optional[str], Field(default=dflt, description=desc))`;
`optModelField name fields dflt` models
`(Optional[<nested model named name>], Field(default=dflt))` where the
nested model has the given field list. -/
inductive PFieldDef where
  | optStrField : Option PyValue → Option PyValue → PFieldDef
  | optModelField : String → List (String × PFieldDef) → Option PyValue → PFieldDef
deriving Repr

/-- A compiled pydantic model: `create_model(name, **fields)`. -/
structure PModel where
  name : String
  fields : List (String × PFieldDef)
deriving Repr

mutual

/-- Embeds the closure `build_field_type` inside
`AIService._create_pydantic_model_from_template` (ai_service.py lines
56-82).  A dict with both a `type` and a `description` key is a leaf and
compiles to `(Optional[str], Field(default=None, description=...))`; any
other dict is treated as an object node whose dict-valued children are
compiled recursively (nested model named `f"{model_name}_{id(field_info)}"`),
degrading to an optional string field when no child survives; every
non-dict value compiles to `(Optional[str], Field(default=None))`. -/
def build_field_type (model_name : String) : PyValue → PFieldDef
  | .vdict ident entries =>
    if hasKey entries "type" && hasKey entries "description" then
      .optStrField none (dictGet entries "description")
    else
      let nested := build_nested_fields model_name entries
      if nested.isEmpty then .optStrField none none
      else .optModelField (model_name ++ "_" ++ toString ident) nested none

  | _ => .optStrField none none

/-- Embeds the loop `for key, value in field_info.items()` in the
object-node branch of `build_field_type` (ai_service.py lines 66-72):
only dict-valued children are added to `nested_fields`; non-dict children
are skipped. -/
def build_nested_fields (model_name : String) : List (String × PyValue) → List (String × PFieldDef)
  | [] => []
  | (k, v) :: rest =>
    match v with
    | .vdict i es => (k, build_field_type model_name (.vdict i es)) :: build_nested_fields model_name rest
    | _ => build_nested_fields model_name rest

end

/-- Embeds `AIService._create_pydantic_model_from_template` (ai_service.py
lines 47-90): builds one field per top-level template key (all values are
processed at the top level, dict or not) and wraps them in a model with
the given name. -/
def create_pydantic_model_from_template (template_structure : List (String × PyValue))
    (model_name : String := "RadiologyReport") : PModel :=
  ⟨model_name, template_structure.map (fun p => (p.1, build_field_type model_name p.2))⟩

mutual

/-- Models `json.dumps` on a template value (the `indent=2` whitespace
formatting and string escaping of the source call are abstracted; no claim
inspects the serialized text). -/
def dumps : PyValue → String
  | .vnone => "null"
  | .vbool b => if b then "true" else "false"
  | .vint n => toString n
  | .vstr s => "\"" ++ s ++ "\""
  | .vlist xs => "[" ++ dumpsList xs ++ "]"
  | .vdict _ es => "\x7b" ++ dumpsEntries es ++ "\x7d"

/-- Serialization of the elements of a list value. -/
def dumpsList : List PyValue → String
  | [] => ""
  | [v] => dumps v
  | v :: rest => dumps v ++ ", " ++ dumpsList rest

/-- Serialization of the entries of a dict value. -/
def dumpsEntries : List (String × PyValue) → String
  | [] => ""
  | [(k, v)] => "\"" ++ k ++ "\": " ++ dumps v
  | (k, v) :: rest => "\"" ++ k ++ "\": " ++ dumps v ++ ", " ++ dumpsEntries rest

end

/-- Serialization of a top-level template structure (a Python dict). -/
def dumpsTop (template_structure : List (String × PyValue)) : String :=
  "\x7b" ++ dumpsEntries template_structure ++ "\x7d"

/-- Embeds `AIService._build_prompt` (ai_service.py lines 119-142): the
f-string rendering report text and serialized template into the fixed
instruction block. -/
def build_prompt (report_text : String) (template_structure : List (String × PyValue)) : String :=
  let template_fields := dumpsTop template_structure
  "You are a medical AI assistant specialized in structuring radiology reports.\n\nGiven the following radiology report text and template structure, extract the relevant information and return it as a structured JSON object.\n\nRADIOLOGY REPORT:\n" ++ report_text ++ "\n\nTEMPLATE STRUCTURE:\n" ++ template_fields ++ "\n\nINSTRUCTIONS:\n1. Extract information from the report that matches the template fields\n2. Use null for fields where information is not found\n3. Maintain medical accuracy and terminology\n4. Return ONLY a valid JSON object matching the template structure\n5. Do not include any explanatory text, only the JSON\n\nRESPONSE (JSON only):"

/-- A content block of an Anthropic messages response: either a text block
or a tool-use block carrying the tool-call `input` payload. -/
inductive ContentBlock where
  | text : String → ContentBlock
  | toolUse : PyValue → ContentBlock
deriving Repr

/-- Whether a content block is a tool-use block (`content_block.type == "tool_use"`). -/
def isToolUse : ContentBlock → Bool
  | .toolUse _ => true
  | _ => false

/-- The dict `\x7b"structured_data": ..., "confidence_score": ...\x7d`
returned by the adapters on success. -/
structure ExtractionOutcome where
  structured_data : PyValue
  confidence_score : Nat
deriving Repr

/-- Embeds the loop `for content_block in message.content` of
`AIService._call_anthropic` (ai_service.py lines 164-172): the first
tool-use block yields the result with the fixed confidence 85; if none
exists the call raises `"No structured data returned from Anthropic"`. -/
def extract_tool_use : List ContentBlock → Except String ExtractionOutcome
  | [] => .error "No structured data returned from Anthropic"
  | .toolUse payload :: _ => .ok ⟨payload, 85⟩
  | _ :: rest => extract_tool_use rest

/-- Embeds `AIService._call_anthropic` (ai_service.py lines 144-172). The
outbound network call is an oracle parameter: `.error m` models the
`messages.create` call raising with message `m`, `.ok content` models a
response with the given content blocks. -/
def call_anthropic (response : Except String (List ContentBlock)) : Except String ExtractionOutcome :=
  match response with
  | .error e => .error e
  | .ok content => extract_tool_use content

/-- Embeds `AIService._call_openai` (ai_service.py lines 174-198), used
for both the openai and the ollama provider. The parse call is an oracle:
`.error m` models `beta.chat.completions.parse` raising, `.ok none`
models `choices[0].message.parsed` being `None`, `.ok (some p)` a parsed
payload `p`. On success the fixed confidence is 85; a `None` parse raises
`f"No structured data returned from \x7bself.provider\x7d"`. -/
def call_openai (provider : String) (parsed : Except String (Option PyValue)) : Except String ExtractionOutcome :=
  match parsed with
  | .error e => .error e
  | .ok (some p) => .ok ⟨p, 85⟩
  | .ok none => .error ("No structured data returned from " ++ provider)

/-- The `try`/`except` of `structure_report` (ai_service.py lines
108-117): a successful adapter result passes through unchanged, and any
exception raised inside the block is re-raised as
`Exception(f"AI processing failed: \x7bstr(e)\x7d")`. -/
def wrap_ai_error (inner : Except String ExtractionOutcome) : Except String ExtractionOutcome :=
  match inner with
  | .ok r => .ok r
  | .error e => .error ("AI processing failed: " ++ e)

/-- Embeds `AIService.structure_report` (ai_service.py lines 92-117):
compile the pydantic model and build the prompt (both before the `try`
block and total), then dispatch on the resolved provider inside the
`try`, whose exceptions are wrapped by `wrap_ai_error`. -/
def structure_report (provider : String) (report_text : String)
    (template_structure : List (String × PyValue))
    (anthropic_response : Except String (List ContentBlock))
    (openai_parsed : Except String (Option PyValue)) : Except String ExtractionOutcome :=
  let _response_model := create_pydantic_model_from_template template_structure
  let _prompt := build_prompt report_text template_structure
  wrap_ai_error
    (if provider == "anthropic" then call_anthropic anthropic_response
     else if provider == "openai" || provider == "ollama" then call_openai provider openai_parsed
     else .error ("Unsupported AI provider: " ++ provider))

/-- The provider-relevant fields of `app.core.config.Settings`
(config.py lines 22-25): all three are `Optional[str]` defaulting to
`None`. -/
structure Settings where
  AI_PROVIDER : Option String
  ANTHROPIC_API_KEY : Option String
  OPENAI_API_KEY : Option String

/-- Python truthiness of an `Optional[str]`: `None` and `""` are falsy. -/
def pyTruthy : Option String → Bool
  | none => false
  | some s => s != ""

/-- Python `str.lower()` (on the ASCII configuration strings the code
compares against). -/
def py_lower (s : String) : String :=
  String.mk (s.data.map Char.toLower)

/-- Embeds `AIService._determine_provider` (ai_service.py lines 29-45):
an explicitly configured provider is lowercased and validated against the
three known names (invalid names raise `ValueError`); otherwise the
anthropic credential is checked, then the openai credential, and with no
credential the local ollama backend is selected. -/
def determine_provider (s : Settings) : Except String String :=
  if pyTruthy s.AI_PROVIDER then
    let provider := py_lower (s.AI_PROVIDER.getD "")
    if provider == "anthropic" || provider == "openai" || provider == "ollama" then
      .ok provider
    else
      .error ("Invalid AI_PROVIDER: " ++ provider)
  else if pyTruthy s.ANTHROPIC_API_KEY then .ok "anthropic"
  else if pyTruthy s.OPENAI_API_KEY then .ok "openai"
  else .ok "ollama"

/-- A parsed JSON document, as produced by `json.loads` on an uploaded
file (reports.py line 52). -/
inductive JsonVal where
  | jnull : JsonVal
  | jbool : Bool → JsonVal
  | jnum : Int → JsonVal
  | jstr : String → JsonVal
  | jarr : List JsonVal → JsonVal
  | jobj : List (String × JsonVal) → JsonVal
deriving Repr

/-- Python `type(v).__name__` for a parsed JSON value, as interpolated
into the invalid-report detail message (reports.py line 66). -/
def typeName : JsonVal → String
  | .jnull => "NoneType"
  | .jbool _ => "bool"
  | .jnum _ => "int"
  | .jstr _ => "str"
  | .jarr _ => "list"
  | .jobj _ => "dict"

/-- An uploaded file as the endpoint observes it: its filename and the
outcome of decoding and `json.loads`-parsing its content (`.error m`
models a `json.JSONDecodeError` with message `m`). -/
structure UploadFile where
  filename : String
  parsed : Except String JsonVal

/-- The FastAPI `HTTPException(status_code, detail)`. -/
structure HTTPException where
  status_code : Nat
  detail : String
deriving Repr, DecidableEq

/-- The suffix of a character list starting at its last dot, if any. -/
def lastDotSuffix : List Char → Option (List Char)
  | [] => none
  | c :: rest =>
    match lastDotSuffix rest with
    | some suf => some suf
    | none => if c == '.' then some (c :: rest) else none

/-- Models `os.path.splitext(filename)[1]`: the extension from the last
dot of the name, where the leading dots of the name never start an
extension (directory separators are not modelled; upload filenames are
bare names). -/
def splitext_ext (filename : String) : String :=
  match lastDotSuffix (filename.data.dropWhile (fun c => c == '.')) with
  | some suf => String.mk suf
  | none => ""

/-- `settings.ALLOWED_EXTENSIONS` (config.py line 34). -/
def ALLOWED_EXTENSIONS : List String := [".json"]

/-- Python `not report_text.strip()`: true iff the string is empty or
whitespace-only (so `strip()` leaves the empty, falsy string). -/
def py_strip_is_empty (s : String) : Bool :=
  s.data.all (fun c => c.isWhitespace)

/-- Embeds the element-validation loop `for idx, report_text in
enumerate(json_data)` of `create_batch` (reports.py lines 62-72): a
non-string element or an empty/whitespace-only string raises a 400, and
on success the list of report texts is returned in order. -/
def validate_reports (filename : String) (idx : Nat) : List JsonVal → Except HTTPException (List String)
  | [] => .ok []
  | .jstr s :: rest =>
    if py_strip_is_empty s then
      .error ⟨400, "Empty report at index " ++ toString idx ++ " in " ++ filename ++ "."⟩
    else
      (validate_reports filename (idx + 1) rest).map (fun ts => s :: ts)
  | v :: _ =>
    .error ⟨400, "Invalid report at index " ++ toString idx ++ " in " ++ filename ++ ". Expected string, got " ++ typeName v ++ "."⟩

/-- Embeds the per-file body of the `for file in files` loop of
`create_batch` (reports.py lines 40-85): extension check, JSON parse,
array check, element validation, and collection of `(text, source_file)`
pairs. -/
def process_file (f : UploadFile) : Except HTTPException (List (String × String)) :=
  if (py_lower (splitext_ext f.filename) ∈ ALLOWED_EXTENSIONS) then
    match f.parsed with
    | .error msg => .error ⟨400, "Invalid JSON in " ++ f.filename ++ ": " ++ msg⟩
    | .ok (.jarr xs) =>
      (validate_reports f.filename 0 xs).map (fun ts => ts.map (fun t => (t, f.filename)))
    | .ok _ => .error ⟨400, "Invalid JSON format in " ++ f.filename ++ ". Expected an array of report texts."⟩
  else
    .error ⟨400, "Invalid file type: " ++ f.filename ++ ". Only .json files are allowed."⟩

/-- The full `for file in files` loop: `all_reports` accumulated in file
order, aborting at the first failing file. -/
def collect_all_reports : List UploadFile → Except HTTPException (List (String × String))
  | [] => .ok []
  | f :: rest =>
    match process_file f with
    | .error e => .error e
    | .ok rs =>
      match collect_all_reports rest with
      | .error e => .error e
      | .ok more => .ok (rs ++ more)

/-- A `ReportBatch` row as created by `create_batch` (reports.py lines 94-99). -/
structure BatchRecord where
  id : Nat
  name : String
  template_id : Nat
  total_reports : Nat
  status : String
deriving Repr, DecidableEq

/-- A `StructuredReport` row as created by `create_batch` (reports.py lines 110-116). -/
structure ReportRecord where
  id : Nat
  batch_id : Nat
  template_id : Nat
  original_text : String
  filename : String
  status : String
deriving Repr, DecidableEq

/-- The externally visible writes of one `create_batch` call: rows added
to the two tables and the report ids passed to
`process_report_task.delay`. -/
structure Effects where
  batches : List BatchRecord
  reports : List ReportRecord
  dispatched : List Nat
deriving Repr, DecidableEq

/-- The empty effect log: nothing written, nothing dispatched. -/
def noEffects : Effects := ⟨[], [], []⟩

/-- Python `enumerate` starting at `start`. -/
def pyEnumerate (start : Nat) : List α → List (Nat × α)
  | [] => []
  | x :: xs => (start, x) :: pyEnumerate (start + 1) xs

/-- One `StructuredReport` row of the creation loop (reports.py lines
109-116): database ids are modelled as assigned sequentially from
`first_report_id`. -/
def mk_report (batch_id template_id first_report_id : Nat) (p : Nat × (String × String)) : ReportRecord :=
  ⟨first_report_id + p.1, batch_id, template_id, p.2.1,
    p.2.2 ++ "_report_" ++ toString (p.1 + 1), "pending"⟩

/-- Embeds the endpoint `create_batch` (reports.py lines 16-124).
`templates` models the ids present in the `Template` table; `batch_id`
and `first_report_id` model the database-assigned primary keys. In source
order: the template-existence check, the per-file validation loop, the
emptiness check, then — only after all validation — the batch insert, the
per-report inserts and one dispatch per created report id. The first
component is the HTTP response (`.error` models a raised
`HTTPException`), the second the accumulated writes. -/
def create_batch (templates : List Nat) (name : String) (template_id : Nat)
    (files : List UploadFile) (batch_id : Nat) (first_report_id : Nat) :
    Except HTTPException BatchRecord × Effects :=
  if template_id ∈ templates then
    match collect_all_reports files with
    | .error e => (.error e, noEffects)
    | .ok all_reports =>
      if all_reports.isEmpty then
        (.error ⟨400, "No reports found in uploaded files."⟩, noEffects)
      else
        let batch : BatchRecord := ⟨batch_id, name, template_id, all_reports.length, "pending"⟩
        let reports := (pyEnumerate 0 all_reports).map (mk_report batch_id template_id first_report_id)
        (.ok batch, ⟨[batch], reports, reports.map (fun r => r.id)⟩)
  else
    (.error ⟨404, "Template not found"⟩, noEffects)

mutual

/-- Erases the object identities inside a template value: this is exactly
Python structural equality `==` on template data, so two dicts are
equal-but-distinct copies iff they have equal erasures (and are built with
different identities). -/
def eraseId : PyValue → PyValue
  | .vnone => .vnone
  | .vbool b => .vbool b
  | .vint n => .vint n
  | .vstr s => .vstr s
  | .vlist xs => .vlist (eraseIdList xs)
  | .vdict _ es => .vdict 0 (eraseIdEntries es)

/-- Identity erasure on the elements of a list value. -/
def eraseIdList : List PyValue → List PyValue
  | [] => []
  | v :: r => eraseId v :: eraseIdList r

/-- Identity erasure on the entries of a dict value. -/
def eraseIdEntries : List (String × PyValue) → List (String × PyValue)
  | [] => []
  | (k, v) :: r => (k, eraseId v) :: eraseIdEntries r

end

mutual

/-- Erases from a compiled field everything that depends on object
identity: generated nested-model names, and identities inside stored
description metadata. What remains is exactly the structural content of
the field: its name-indexed nesting, optionality and defaults. -/
def eraseGenName : PFieldDef → PFieldDef
  | .optStrField d desc => .optStrField (d.map eraseId) (desc.map eraseId)
  | .optModelField _ fs d => .optModelField "" (eraseGenNameFields fs) (d.map eraseId)

/-- Identity-dependent-data erasure on a compiled field list. -/
def eraseGenNameFields : List (String × PFieldDef) → List (String × PFieldDef)
  | [] => []
  | (k, f) :: r => (k, eraseGenName f) :: eraseGenNameFields r

end

/-- Identity-dependent-data erasure on a compiled model. -/
def eraseModelGenNames (m : PModel) : PModel :=
  ⟨m.name, eraseGenNameFields m.fields⟩

/-- Python dict assignment `d[k] = v` for a key already present: replaces
the value of the first entry with key `k`, preserving entry order. -/
def setVal : List (String × PyValue) → String → PyValue → List (String × PyValue)
  | [], _, _ => []
  | (k, v) :: r, key, nv => if k == key then (k, nv) :: r else (k, v) :: setVal r key nv

/-- Field lookup in a compiled field list. -/
def fieldsGet (fs : List (String × PFieldDef)) (k : String) : Option PFieldDef :=
  (fs.find? (fun p => p.1 == k)).map Prod.snd

/-- The compiled field reached by following a path of field names through
nested models, or `none` when some step is missing or not a nested model. -/
def findAtPath (fs : List (String × PFieldDef)) : List String → Option PFieldDef
  | [] => none
  | [k] => fieldsGet fs k
  | k :: rest =>
    match fieldsGet fs k with
    | some (.optModelField _ inner _) => findAtPath inner rest
    | _ => none

/-- Whether a parsed JSON array element fails the element validation of
`create_batch`: not a string, or empty/whitespace-only. -/
def element_bad : JsonVal → Bool
  | .jstr s => py_strip_is_empty s
  | _ => true

/-- Whether an uploaded file fails one of the per-file validations of
`create_batch`: disallowed extension, unparseable JSON, a non-array
document, or a bad array element. -/
def file_bad (f : UploadFile) : Bool :=
  !(py_lower (splitext_ext f.filename) ∈ ALLOWED_EXTENSIONS : Bool) ||
    (match f.parsed with
     | .error _ => true
     | .ok (.jarr xs) => xs.any element_bad
     | .ok _ => true)

/-- The generated name of the nested model compiled for field `"a"` of a
model, or `""` when that field is not a nested-model field. -/
def genNameAtA (m : PModel) : String :=
  match fieldsGet m.fields "a" with
  | some (.optModelField n _ _) => n
  | _ => ""

theorem hasKey_eq_isSome_dictGet (es : List (String × PyValue)) (k : String) :
    hasKey es k = (dictGet es k).isSome := by
  induction es with
  | nil => rfl
  | cons p r ih =>
    obtain ⟨k1, v1⟩ := p
    by_cases h : (k1 == k) = true
    · simp [hasKey, dictGet, List.find?, h]
    · simp only [Bool.not_eq_true] at h
      simp [hasKey, dictGet, List.find?, h] at ih ⊢
      exact ih

theorem hasKey_setVal (es : List (String × PyValue)) (key : String) (nv : PyValue) (k : String) :
    hasKey (setVal es key nv) k = hasKey es k := by
  induction es with
  | nil => rfl
  | cons p r ih =>
    obtain ⟨k1, v1⟩ := p
    by_cases h : (k1 == key) = true
    · simp [setVal, hasKey, h]
    · simp only [Bool.not_eq_true] at h
      simp only [hasKey] at ih
      simp [setVal, hasKey, h, ih]

theorem dictGet_setVal_ne (es : List (String × PyValue)) (key : String) (nv : PyValue)
    (k : String) (hk : k ≠ key) :
    dictGet (setVal es key nv) k = dictGet es k := by
  induction es with
  | nil => rfl
  | cons p r ih =>
    obtain ⟨k1, v1⟩ := p
    by_cases h : (k1 == key) = true
    · have hne : (k1 == k) = false := by
        simp only [beq_iff_eq] at h
        subst h
        simpa [beq_eq_false_iff_ne] using fun hkk => hk hkk.symm
      simp [setVal, dictGet, List.find?, h, hne]
    · simp only [Bool.not_eq_true] at h
      by_cases h2 : (k1 == k) = true
      · simp [setVal, dictGet, List.find?, h, h2]
      · simp only [Bool.not_eq_true] at h2
        simp only [setVal, h, dictGet, List.find?, h2] at ih ⊢
        exact ih

theorem extract_tool_use_ok_confidence :
    ∀ (cs : List ContentBlock) (r : ExtractionOutcome),
      extract_tool_use cs = .ok r → r.confidence_score = 85
  | .toolUse p :: _, r, h => by
    simp only [extract_tool_use] at h
    cases h
    rfl
  | .text s :: rest, r, h => by
    simp only [extract_tool_use] at h
    exact extract_tool_use_ok_confidence rest r h

theorem call_anthropic_ok_confidence (x : Except String (List ContentBlock))
    (r : ExtractionOutcome) (h : call_anthropic x = .ok r) : r.confidence_score = 85 := by
  cases x with
  | error e => simp [call_anthropic] at h
  | ok content => exact extract_tool_use_ok_confidence content r h

theorem call_openai_ok_confidence (prov : String) (x : Except String (Option PyValue))
    (r : ExtractionOutcome) (h : call_openai prov x = .ok r) : r.confidence_score = 85 := by
  cases x with
  | error e => simp [call_openai] at h
  | ok o =>
    cases o with
    | none => simp [call_openai] at h
    | some p =>
      simp only [call_openai] at h
      cases h
      rfl

theorem wrap_ai_error_error_shape (x : Except String ExtractionOutcome) (e : String)
    (h : wrap_ai_error x = .error e) : ∃ cause, e = "AI processing failed: " ++ cause := by
  cases x with
  | ok r => simp [wrap_ai_error] at h
  | error e1 =>
    simp only [wrap_ai_error, Except.error.injEq] at h
    exact ⟨e1, h.symm⟩

theorem wrap_ai_error_ok (x : Except String ExtractionOutcome) (r : ExtractionOutcome)
    (h : wrap_ai_error x = .ok r) : x = .ok r := by
  cases x with
  | ok a =>
    simp only [wrap_ai_error, Except.ok.injEq] at h
    rw [h]
  | error e => simp [wrap_ai_error] at h

/-- C3: every failure of `structure_report` escapes as the single wrapped
extraction error `"AI processing failed: <cause>"`, and a failure of the
provider-adapter call (modelled as the oracle raising with message `m`)
produces exactly the wrapped error carrying `m` as its cause; no other
error shape reaches the caller. Schema compilation and prompt building
are total in the code, so the adapter call and the unsupported-provider
branch are the only exception sources inside `structure_report`. -/
theorem c3_error_boundary (provider report_text : String)
    (ts : List (String × PyValue))
    (ar : Except String (List ContentBlock))
    (op : Except String (Option PyValue)) :
    (∀ e, structure_report provider report_text ts ar op = .error e →
        ∃ cause, e = "AI processing failed: " ++ cause)
    ∧ (∀ m, provider = "anthropic" → ar = .error m →
        structure_report provider report_text ts ar op
          = .error ("AI processing failed: " ++ m))
    ∧ (∀ m, provider = "openai" ∨ provider = "ollama" → op = .error m →
        structure_report provider report_text ts ar op
          = .error ("AI processing failed: " ++ m)) := by
  refine ⟨?_, ?_, ?_⟩
  · intro e he
    simp only [structure_report] at he
    exact wrap_ai_error_error_shape _ _ he
  · intro m hp har
    subst hp
    subst har
    rfl
  · intro m hp hop
    subst hop
    rcases hp with rfl | rfl <;> rfl

/-- Witness for C3 at concrete inputs: an adapter failure with cause
`"connection refused"` under each provider yields exactly the wrapped
error. -/
theorem c3_error_boundary_witness :
    structure_report "anthropic" "report" [] (.error "connection refused") (.ok none)
      = .error ("AI processing failed: " ++ "connection refused")
    ∧ structure_report "ollama" "report" [] (.ok []) (.error "connection refused")
      = .error ("AI processing failed: " ++ "connection refused") :=
  ⟨(c3_error_boundary "anthropic" "report" [] (.error "connection refused") (.ok none)).2.1
      "connection refused" rfl rfl,
   (c3_error_boundary "ollama" "report" [] (.ok []) (.error "connection refused")).2.2
      "connection refused" (Or.inr rfl) rfl⟩

/-- C4: every successful `structure_report` call — whichever provider was
resolved and whatever the inputs and oracle responses — returns the fixed
confidence constant 85, inside the documented 0-100 range. -/
theorem c4_confidence_constant (provider report_text : String)
    (ts : List (String × PyValue))
    (ar : Except String (List ContentBlock))
    (op : Except String (Option PyValue))
    (r : ExtractionOutcome)
    (h : structure_report provider report_text ts ar op = .ok r) :
    r.confidence_score = 85 ∧ r.confidence_score ≤ 100 := by
  simp only [structure_report] at h
  have hx := wrap_ai_error_ok _ _ h
  have hc : r.confidence_score = 85 := by
    by_cases hp : (provider == "anthropic") = true
    · rw [if_pos hp] at hx
      exact call_anthropic_ok_confidence _ _ hx
    · rw [if_neg (by simp [hp])] at hx
      by_cases hq : (provider == "openai" || provider == "ollama") = true
      · rw [if_pos hq] at hx
        exact call_openai_ok_confidence _ _ _ hx
      · rw [if_neg (by simp at hq ⊢; exact hq)] at hx
        exact absurd hx (by simp)
  exact ⟨hc, by omega⟩

/-- Witness for C4: a successful ollama-path call on a parsed payload
returns confidence 85. -/
theorem c4_confidence_constant_witness :
    (ExtractionOutcome.mk PyValue.vnone 85).confidence_score = 85
    ∧ (ExtractionOutcome.mk PyValue.vnone 85).confidence_score ≤ 100 :=
  c4_confidence_constant "ollama" "No acute findings." [] (.ok [])
    (.ok (some PyValue.vnone)) ⟨PyValue.vnone, 85⟩ rfl

/-- C8: a provider response with no usable payload — no tool-use content
block for the Anthropic tool-call adapter, no parsed message for the
OpenAI/Ollama structured-decoding adapter — makes the adapter fail with
the human-readable cause string of the source, carrying no structured
payload (the error value carries only the cause). -/
theorem c8_no_payload_error :
    (∀ content : List ContentBlock, content.all (fun b => !isToolUse b) = true →
        call_anthropic (.ok content) = .error "No structured data returned from Anthropic")
    ∧ ∀ provider : String,
        call_openai provider (.ok none)
          = .error ("No structured data returned from " ++ provider) := by
  constructor
  · intro content
    induction content with
    | nil => intro h; rfl
    | cons b rest ih =>
      intro h
      cases b with
      | text s =>
        exact ih (by simpa [isToolUse] using h)
      | toolUse p => simp [isToolUse] at h
  · intro provider
    rfl

/-- Witness for C8: a text-only Anthropic response and a `None` parse
each produce the source error message. -/
theorem c8_no_payload_error_witness :
    call_anthropic (.ok [.text "I cannot help with that."])
      = .error "No structured data returned from Anthropic"
    ∧ call_openai "ollama" (.ok none)
      = .error ("No structured data returned from " ++ "ollama") :=
  ⟨c8_no_payload_error.1 [.text "I cannot help with that."] rfl,
   c8_no_payload_error.2 "ollama"⟩

/-- C5: provider resolution precedence — an explicitly configured
provider is used after lowercasing and validation against the set
anthropic/openai/ollama (invalid names raise); with no explicit
configuration the anthropic credential is checked first, then the openai
credential, and the absence of all credentials resolves to the local
unauthenticated ollama backend as a non-error result. -/
theorem c5_provider_resolution :
    (∀ (s : Settings) (p : String), s.AI_PROVIDER = some p → p ≠ "" →
        (py_lower p = "anthropic" ∨ py_lower p = "openai" ∨ py_lower p = "ollama") →
        determine_provider s = .ok (py_lower p))
    ∧ (∀ (s : Settings) (p : String), s.AI_PROVIDER = some p → p ≠ "" →
        ¬(py_lower p = "anthropic" ∨ py_lower p = "openai" ∨ py_lower p = "ollama") →
        determine_provider s = .error ("Invalid AI_PROVIDER: " ++ py_lower p))
    ∧ (∀ s : Settings, pyTruthy s.AI_PROVIDER = false →
        pyTruthy s.ANTHROPIC_API_KEY = true → determine_provider s = .ok "anthropic")
    ∧ (∀ s : Settings, pyTruthy s.AI_PROVIDER = false →
        pyTruthy s.ANTHROPIC_API_KEY = false → pyTruthy s.OPENAI_API_KEY = true →
        determine_provider s = .ok "openai")
    ∧ (∀ s : Settings, pyTruthy s.AI_PROVIDER = false →
        pyTruthy s.ANTHROPIC_API_KEY = false → pyTruthy s.OPENAI_API_KEY = false →
        determine_provider s = .ok "ollama") := by
  have htruthy : ∀ p : String, p ≠ "" → pyTruthy (some p) = true := by
    intro p hp
    simpa [pyTruthy, bne_iff_ne] using hp
  refine ⟨?_, ?_, ?_, ?_, ?_⟩
  · intro s p hp hne hv
    have ht := htruthy p hne
    rcases hv with h | h | h <;> simp [determine_provider, hp, ht, h]
  · intro s p hp hne hv
    push_neg at hv
    obtain ⟨h1, h2, h3⟩ := hv
    have ht := htruthy p hne
    simp [determine_provider, hp, ht, h1, h2, h3]
  · intro s h1 h2
    simp [determine_provider, h1, h2]
  · intro s h1 h2 h3
    simp [determine_provider, h1, h2, h3]
  · intro s h1 h2 h3
    simp [determine_provider, h1, h2, h3]

/-- Witness for C5: each precedence branch at a concrete settings value,
including the credential-free case resolving to ollama without error. -/
theorem c5_provider_resolution_witness :
    determine_provider ⟨some "Anthropic", none, none⟩ = .ok "anthropic"
    ∧ determine_provider ⟨some "gemini", none, none⟩
        = .error ("Invalid AI_PROVIDER: " ++ "gemini")
    ∧ determine_provider ⟨none, some "sk-ant-key", none⟩ = .ok "anthropic"
    ∧ determine_provider ⟨none, none, some "sk-key"⟩ = .ok "openai"
    ∧ determine_provider ⟨none, none, none⟩ = .ok "ollama" :=
  ⟨(c5_provider_resolution.1 ⟨some "Anthropic", none, none⟩ "Anthropic" rfl (by decide)
      (Or.inl (by decide))).trans (congrArg Except.ok (by decide)),
   (c5_provider_resolution.2.1 ⟨some "gemini", none, none⟩ "gemini" rfl (by decide)
      (by decide)).trans (congrArg Except.error (by decide)),
   c5_provider_resolution.2.2.1 ⟨none, some "sk-ant-key", none⟩ rfl rfl,
   c5_provider_resolution.2.2.2.1 ⟨none, none, some "sk-key"⟩ rfl rfl rfl,
   c5_provider_resolution.2.2.2.2 ⟨none, none, none⟩ rfl rfl rfl⟩

/-- C6: a leaf node — a dict with both a `type` and a `description` key —
compiles, wherever `build_field_type` reaches it, to the optional string
field with default `None` carrying the leaf's description as metadata;
and replacing the value stored under `type` by any other value does not
change the compiled field. -/
theorem c6_leaf_field (mn : String) (i : Nat) (entries : List (String × PyValue)) (d : PyValue)
    (htype : hasKey entries "type" = true)
    (hdesc : dictGet entries "description" = some d) :
    build_field_type mn (.vdict i entries) = .optStrField none (some d)
    ∧ ∀ t1 t2 : PyValue,
        build_field_type mn (.vdict i (setVal entries "type" t1))
          = build_field_type mn (.vdict i (setVal entries "type" t2)) := by
  have hdk : hasKey entries "description" = true := by
    rw [hasKey_eq_isSome_dictGet, hdesc]
    rfl
  have hne : ("description" : String) ≠ "type" := by decide
  constructor
  · simp [build_field_type, htype, hdk, hdesc]
  · intro t1 t2
    have ht1 : hasKey (setVal entries "type" t1) "type" = true := by
      rw [hasKey_setVal]; exact htype
    have ht2 : hasKey (setVal entries "type" t2) "type" = true := by
      rw [hasKey_setVal]; exact htype
    have hd1 : hasKey (setVal entries "type" t1) "description" = true := by
      rw [hasKey_setVal]; exact hdk
    have hd2 : hasKey (setVal entries "type" t2) "description" = true := by
      rw [hasKey_setVal]; exact hdk
    have hg1 : dictGet (setVal entries "type" t1) "description" = some d := by
      rw [dictGet_setVal_ne _ _ _ _ hne]; exact hdesc
    have hg2 : dictGet (setVal entries "type" t2) "description" = some d := by
      rw [dictGet_setVal_ne _ _ _ _ hne]; exact hdesc
    simp [build_field_type, ht1, ht2, hd1, hd2, hg1, hg2]

/-- Witness for C6 at a concrete leaf: the compiled field carries the
description with default `None`, and swapping the `type` value from
`"number"` to `true` leaves the compiled field unchanged. -/
theorem c6_leaf_field_witness :
    build_field_type "RadiologyReport"
        (.vdict 9 [("type", .vstr "string"), ("description", .vstr "primary finding")])
      = .optStrField none (some (.vstr "primary finding"))
    ∧ build_field_type "RadiologyReport"
        (.vdict 9 (setVal [("type", .vstr "string"), ("description", .vstr "primary finding")]
          "type" (.vstr "number")))
      = build_field_type "RadiologyReport"
          (.vdict 9 (setVal [("type", .vstr "string"), ("description", .vstr "primary finding")]
            "type" (.vbool true))) :=
  ⟨(c6_leaf_field "RadiologyReport" 9
      [("type", .vstr "string"), ("description", .vstr "primary finding")]
      (.vstr "primary finding") rfl rfl).1,
   (c6_leaf_field "RadiologyReport" 9
      [("type", .vstr "string"), ("description", .vstr "primary finding")]
      (.vstr "primary finding") rfl rfl).2 (.vstr "number") (.vbool true)⟩

/-- C7: the nested template of the spec compiles to one optional nested
object `lungs` holding exactly one optional field `findings`, and a flat
template and a depth-3 template compile by the same recursive rule with
no depth special-casing. -/
theorem c7_uniform_nesting :
    create_pydantic_model_from_template
        [("lungs", .vdict 1 [("findings",
            .vdict 2 [("type", .vstr "string"), ("description", .vstr "lung findings")])])]
      = ⟨"RadiologyReport",
         [("lungs", .optModelField "RadiologyReport_1"
            [("findings", .optStrField none (some (.vstr "lung findings")))] none)]⟩
    ∧ create_pydantic_model_from_template
        [("finding", .vdict 3 [("type", .vstr "string"),
            ("description", .vstr "primary finding")])]
      = ⟨"RadiologyReport", [("finding", .optStrField none (some (.vstr "primary finding")))]⟩
    ∧ create_pydantic_model_from_template
        [("chest", .vdict 4 [("lungs", .vdict 5 [("findings",
            .vdict 6 [("type", .vstr "string"), ("description", .vstr "lung findings")])])])]
      = ⟨"RadiologyReport",
         [("chest", .optModelField "RadiologyReport_4"
            [("lungs", .optModelField "RadiologyReport_5"
               [("findings", .optStrField none (some (.vstr "lung findings")))] none)] none)]⟩ :=
  ⟨rfl, rfl, rfl⟩

theorem pyEnumerate_length (l : List α) : ∀ n, (pyEnumerate n l).length = l.length := by
  induction l with
  | nil => intro n; rfl
  | cons x xs ih => intro n; simp [pyEnumerate, ih]

theorem mk_report_map_original_text (b t f : Nat) :
    ∀ (l : List (String × String)) (n : Nat),
      ((pyEnumerate n l).map (mk_report b t f)).map (fun r => r.original_text) = l.map Prod.fst := by
  intro l
  induction l with
  | nil => intro n; rfl
  | cons x xs ih => intro n; simp [pyEnumerate, mk_report, ih]

theorem mk_report_status (b t f : Nat) (p : Nat × (String × String)) :
    (mk_report b t f p).status = "pending" := rfl

/-- C9: a valid batch-creation request — existing template, all files
validating, N collected report texts with N at least 1 — creates exactly
one batch row with `total_reports = N` and status `pending`, exactly one
report row per input text in status `pending` storing its original text,
and issues exactly one dispatch per created report id. -/
theorem c9_batch_creation (templates : List Nat) (name : String) (template_id : Nat)
    (files : List UploadFile) (batch_id first_report_id : Nat)
    (rs : List (String × String))
    (htempl : template_id ∈ templates)
    (hcollect : collect_all_reports files = .ok rs)
    (hne : rs ≠ []) :
    (create_batch templates name template_id files batch_id first_report_id).1
        = .ok ⟨batch_id, name, template_id, rs.length, "pending"⟩
    ∧ (create_batch templates name template_id files batch_id first_report_id).2.batches
        = [⟨batch_id, name, template_id, rs.length, "pending"⟩]
    ∧ (create_batch templates name template_id files batch_id first_report_id).2.reports.length
        = rs.length
    ∧ (∀ r ∈ (create_batch templates name template_id files batch_id first_report_id).2.reports,
        r.status = "pending")
    ∧ (create_batch templates name template_id files batch_id first_report_id).2.reports.map
          (fun r => r.original_text)
        = rs.map Prod.fst
    ∧ (create_batch templates name template_id files batch_id first_report_id).2.dispatched
        = (create_batch templates name template_id files batch_id first_report_id).2.reports.map
            (fun r => r.id) := by
  have hie : rs.isEmpty = false := by
    cases rs with
    | nil => exact absurd rfl hne
    | cons a l => rfl
  simp only [create_batch, if_pos htempl, hcollect, hie, Bool.false_eq_true, if_false]
  refine ⟨trivial, trivial, ?_, ?_, ?_, trivial⟩
  · rw [List.length_map, pyEnumerate_length]
  · intro r hr
    rw [List.mem_map] at hr
    obtain ⟨p, _, hp⟩ := hr
    rw [← hp]
    exact mk_report_status _ _ _ _
  · exact mk_report_map_original_text _ _ _ rs 0

/-- Witness for C9: one file with two report texts creates a pending
batch of 2, two pending reports holding the original texts, and two
dispatches. -/
theorem c9_batch_creation_witness :
    (create_batch [7] "batch" 7
        [⟨"reports.json", .ok (.jarr [.jstr "No acute findings.", .jstr "Mild cardiomegaly."])⟩]
        10 20).1
      = .ok ⟨10, "batch", 7, [("No acute findings.", "reports.json"),
          ("Mild cardiomegaly.", "reports.json")].length, "pending"⟩
    ∧ (create_batch [7] "batch" 7
        [⟨"reports.json", .ok (.jarr [.jstr "No acute findings.", .jstr "Mild cardiomegaly."])⟩]
        10 20).2.batches
      = [⟨10, "batch", 7, [("No acute findings.", "reports.json"),
          ("Mild cardiomegaly.", "reports.json")].length, "pending"⟩]
    ∧ (create_batch [7] "batch" 7
        [⟨"reports.json", .ok (.jarr [.jstr "No acute findings.", .jstr "Mild cardiomegaly."])⟩]
        10 20).2.reports.length
      = [("No acute findings.", "reports.json"), ("Mild cardiomegaly.", "reports.json")].length
    ∧ (∀ r ∈ (create_batch [7] "batch" 7
        [⟨"reports.json", .ok (.jarr [.jstr "No acute findings.", .jstr "Mild cardiomegaly."])⟩]
        10 20).2.reports, r.status = "pending")
    ∧ (create_batch [7] "batch" 7
        [⟨"reports.json", .ok (.jarr [.jstr "No acute findings.", .jstr "Mild cardiomegaly."])⟩]
        10 20).2.reports.map (fun r => r.original_text)
      = [("No acute findings.", "reports.json"), ("Mild cardiomegaly.", "reports.json")].map
          Prod.fst
    ∧ (create_batch [7] "batch" 7
        [⟨"reports.json", .ok (.jarr [.jstr "No acute findings.", .jstr "Mild cardiomegaly."])⟩]
        10 20).2.dispatched
      = (create_batch [7] "batch" 7
        [⟨"reports.json", .ok (.jarr [.jstr "No acute findings.", .jstr "Mild cardiomegaly."])⟩]
        10 20).2.reports.map (fun r => r.id) :=
  c9_batch_creation [7] "batch" 7
    [⟨"reports.json", .ok (.jarr [.jstr "No acute findings.", .jstr "Mild cardiomegaly."])⟩]
    10 20
    [("No acute findings.", "reports.json"), ("Mild cardiomegaly.", "reports.json")]
    (by decide) rfl (by decide)

/-- Whether an `Except` value is an error (a raised exception). -/
def exceptIsError : Except ε α → Bool
  | .error _ => true
  | .ok _ => false

theorem exceptIsError_exists (x : Except ε α) (h : exceptIsError x = true) :
    ∃ e, x = .error e := by
  cases x with
  | error e => exact ⟨e, rfl⟩
  | ok a => simp [exceptIsError] at h

theorem exceptIsError_map (f : α → β) (x : Except ε α) :
    exceptIsError (x.map f) = exceptIsError x := by
  cases x <;> rfl

theorem validate_reports_error_of_bad :
    ∀ (xs : List JsonVal) (fn : String) (idx : Nat),
      (∃ x ∈ xs, element_bad x = true) →
      exceptIsError (validate_reports fn idx xs) = true := by
  intro xs
  induction xs with
  | nil =>
    intro fn idx h
    obtain ⟨x, hx, _⟩ := h
    exact absurd hx (List.not_mem_nil x)
  | cons v rest ih =>
    intro fn idx h
    cases v with
    | jstr s =>
      by_cases hs : py_strip_is_empty s = true
      · simp [validate_reports, hs, exceptIsError]
      · rw [Bool.not_eq_true] at hs
        have hrest : ∃ x ∈ rest, element_bad x = true := by
          obtain ⟨x, hx, hbad⟩ := h
          rcases List.mem_cons.mp hx with h1 | h1
          · subst h1
            rw [element_bad, hs] at hbad
            exact absurd hbad (by simp)
          · exact ⟨x, h1, hbad⟩
        rw [validate_reports, hs]
        simp only [Bool.false_eq_true, if_false, exceptIsError_map]
        exact ih fn (idx + 1) hrest
    | jnull => rfl
    | jbool b => rfl
    | jnum n => rfl
    | jarr a => rfl
    | jobj o => rfl

theorem process_file_error_of_bad (f : UploadFile) (h : file_bad f = true) :
    exceptIsError (process_file f) = true := by
  rw [file_bad, Bool.or_eq_true] at h
  by_cases hext : (py_lower (splitext_ext f.filename) ∈ ALLOWED_EXTENSIONS)
  · have hrest : (match f.parsed with
        | .error _ => true
        | .ok (.jarr xs) => xs.any element_bad
        | .ok _ => true) = true := by
      rcases h with h | h
      · exact absurd hext (by simpa using h)
      · exact h
    match hp : f.parsed with
    | .error msg => simp [process_file, hext, hp, exceptIsError]
    | .ok (.jarr xs) =>
      rw [hp] at hrest
      have hv := validate_reports_error_of_bad xs f.filename 0
        (by simpa [List.any_eq_true] using hrest)
      simp only [process_file, hext, if_true, hp, exceptIsError_map]
      exact hv
    | .ok .jnull => simp [process_file, hext, hp, exceptIsError]
    | .ok (.jbool b) => simp [process_file, hext, hp, exceptIsError]
    | .ok (.jnum n) => simp [process_file, hext, hp, exceptIsError]
    | .ok (.jstr s) => simp [process_file, hext, hp, exceptIsError]
    | .ok (.jobj o) => simp [process_file, hext, hp, exceptIsError]
  · simp [process_file, hext, exceptIsError]

theorem collect_error_of_mem_bad :
    ∀ files : List UploadFile, (∃ f ∈ files, file_bad f = true) →
      exceptIsError (collect_all_reports files) = true := by
  intro files
  induction files with
  | nil =>
    intro h
    obtain ⟨f, hf, _⟩ := h
    exact absurd hf (List.not_mem_nil f)
  | cons g rest ih =>
    intro h
    match hg : process_file g with
    | .error e => simp [collect_all_reports, hg, exceptIsError]
    | .ok rs =>
      have hrest : ∃ f ∈ rest, file_bad f = true := by
        obtain ⟨f, hf, hbad⟩ := h
        rcases List.mem_cons.mp hf with h1 | h1
        · subst h1
          have he := process_file_error_of_bad f hbad
          rw [hg] at he
          exact absurd he (by simp [exceptIsError])
        · exact ⟨f, h1, hbad⟩
      obtain ⟨e, he⟩ := exceptIsError_exists _ (ih hrest)
      simp [collect_all_reports, hg, he, exceptIsError]

/-- C10: batch creation is atomic with respect to validation failure —
a missing template, any file with a disallowed extension, unparseable
JSON, a non-array document, a non-string or empty/whitespace-only
element, or an empty total collection makes `create_batch` fail with an
`HTTPException`, and the failing call creates no batch row, no report row
and no dispatch: every validation step runs before the first database
write. -/
theorem c10_validation_atomic (templates : List Nat) (name : String) (template_id : Nat)
    (files : List UploadFile) (batch_id first_report_id : Nat)
    (h : template_id ∉ templates
      ∨ (∃ f ∈ files, file_bad f = true)
      ∨ collect_all_reports files = .ok []) :
    (∃ e, (create_batch templates name template_id files batch_id first_report_id).1
        = .error e)
    ∧ (create_batch templates name template_id files batch_id first_report_id).2
        = noEffects := by
  by_cases hmem : template_id ∈ templates
  · rcases h with h | h | h
    · exact absurd hmem h
    · obtain ⟨e, he⟩ := exceptIsError_exists _ (collect_error_of_mem_bad files h)
      constructor
      · exact ⟨e, by simp [create_batch, hmem, he]⟩
      · simp [create_batch, hmem, he]
    · constructor
      · exact ⟨⟨400, "No reports found in uploaded files."⟩,
          by simp [create_batch, hmem, h]⟩
      · simp [create_batch, hmem, h]
  · constructor
    · exact ⟨⟨404, "Template not found"⟩, by simp [create_batch, hmem]⟩
    · simp [create_batch, hmem]

/-- Witness for C10: a request against a missing template errors and
writes nothing; the same holds for a request whose only file holds an
empty array. -/
theorem c10_validation_atomic_witness :
    ((∃ e, (create_batch [] "batch" 1 [⟨"reports.json", .ok (.jarr [.jstr "ok"])⟩] 10 20).1
        = .error e)
      ∧ (create_batch [] "batch" 1 [⟨"reports.json", .ok (.jarr [.jstr "ok"])⟩] 10 20).2
        = noEffects)
    ∧ ((∃ e, (create_batch [3] "batch" 3 [⟨"empty.json", .ok (.jarr [])⟩] 10 20).1
        = .error e)
      ∧ (create_batch [3] "batch" 3 [⟨"empty.json", .ok (.jarr [])⟩] 10 20).2
        = noEffects) :=
  ⟨c10_validation_atomic [] "batch" 1 [⟨"reports.json", .ok (.jarr [.jstr "ok"])⟩] 10 20
      (Or.inl (by decide)),
   c10_validation_atomic [3] "batch" 3 [⟨"empty.json", .ok (.jarr [])⟩] 10 20
      (Or.inr (Or.inr rfl))⟩

/-- Counterexample for C1 at a concrete template: under `"a"`, the key
`"bad"` holds the malformed (non-dict, hence neither-leaf-nor-object)
value `5`; compilation is total and keeps the sibling leaf `"good"`, but
the compiled schema contains no field at all at path `a.bad` — not the
optional string field the claim requires for every malformed node at any
depth. -/
theorem c1_counterexample :
    dictGet [("good", PyValue.vdict 2 [("type", .vstr "string"), ("description", .vstr "d")]),
        ("bad", PyValue.vint 5)] "bad" = some (.vint 5)
    ∧ isDict (.vint 5) = false
    ∧ findAtPath (create_pydantic_model_from_template
        [("a", .vdict 1 [("good", .vdict 2 [("type", .vstr "string"),
            ("description", .vstr "d")]), ("bad", .vint 5)])]).fields ["a", "good"]
      = some (.optStrField none (some (.vstr "d")))
    ∧ findAtPath (create_pydantic_model_from_template
        [("a", .vdict 1 [("good", .vdict 2 [("type", .vstr "string"),
            ("description", .vstr "d")]), ("bad", .vint 5)])]).fields ["a", "bad"]
      = none :=
  ⟨rfl, rfl, rfl, rfl⟩

/-- C1 as amended: schema compilation is total and never raises; a
malformed non-dict value degrades to the permissive optional string field
where `build_field_type` reaches it (in particular at the top level), and
a malformed dict with no dict-valued children degrades likewise; but
inside an object node only dict-valued children are compiled, so a
malformed non-dict value nested in an object node is silently dropped
rather than degraded. -/
theorem c1_degrade_or_drop (mn : String) :
    (∀ v : PyValue, isDict v = false → build_field_type mn v = .optStrField none none)
    ∧ (∀ (i : Nat) (entries : List (String × PyValue)),
        (hasKey entries "type" && hasKey entries "description") = false →
        build_nested_fields mn entries = [] →
        build_field_type mn (.vdict i entries) = .optStrField none none)
    ∧ (∀ entries : List (String × PyValue),
        build_nested_fields mn entries
          = (entries.filter (fun p => isDict p.2)).map
              (fun p => (p.1, build_field_type mn p.2))) := by
  refine ⟨?_, ?_, ?_⟩
  · intro v h
    cases v with
    | vnone => rfl
    | vbool b => rfl
    | vint n => rfl
    | vstr s => rfl
    | vlist xs => rfl
    | vdict i es => simp [isDict] at h
  · intro i entries hk hn
    simp [build_field_type, hk, hn]
  · intro entries
    induction entries with
    | nil => rfl
    | cons p r ih =>
      obtain ⟨k, v⟩ := p
      cases v with
      | vnone => simpa [build_nested_fields, List.filter, isDict] using ih
      | vbool b => simpa [build_nested_fields, List.filter, isDict] using ih
      | vint n => simpa [build_nested_fields, List.filter, isDict] using ih
      | vstr s => simpa [build_nested_fields, List.filter, isDict] using ih
      | vlist xs => simpa [build_nested_fields, List.filter, isDict] using ih
      | vdict i es => simpa [build_nested_fields, List.filter, isDict] using ih

/-- Witness for the amended C1: a top-level non-dict value and a dict
missing `description` with no dict children both degrade to the optional
string field, and an object node's compiled children are exactly its
dict-valued children — the malformed `("bad", 5)` entry is dropped. -/
theorem c1_degrade_or_drop_witness :
    build_field_type "RadiologyReport" (.vint 5) = .optStrField none none
    ∧ build_field_type "RadiologyReport" (.vdict 3 [("type", .vstr "string")])
        = .optStrField none none
    ∧ build_nested_fields "RadiologyReport"
        [("good", .vdict 2 [("type", .vstr "string"), ("description", .vstr "d")]),
         ("bad", .vint 5)]
      = ([(("good" : String), PyValue.vdict 2 [("type", .vstr "string"),
            ("description", .vstr "d")]), ("bad", PyValue.vint 5)].filter
              (fun p => isDict p.2)).map
          (fun p => (p.1, build_field_type "RadiologyReport" p.2)) :=
  ⟨(c1_degrade_or_drop "RadiologyReport").1 (.vint 5) rfl,
   (c1_degrade_or_drop "RadiologyReport").2.1 3 [("type", .vstr "string")] rfl rfl,
   (c1_degrade_or_drop "RadiologyReport").2.2
     [("good", .vdict 2 [("type", .vstr "string"), ("description", .vstr "d")]),
      ("bad", .vint 5)]⟩

/-- Counterexample for C2 at two equal-but-distinct copies of the same
template (equal erasures, distinct dict identities, exactly as two
separately parsed copies of one template JSON): the compiled schemas are
not structurally identical, because the generated nested-model name is
keyed by `id(field_info)` and differs between the copies. -/
theorem c2_counterexample :
    eraseIdEntries [("a", PyValue.vdict 1 [("b", .vdict 2 [("type", .vstr "string"),
        ("description", .vstr "d")])])]
      = eraseIdEntries [("a", PyValue.vdict 3 [("b", .vdict 4 [("type", .vstr "string"),
          ("description", .vstr "d")])])]
    ∧ create_pydantic_model_from_template
        [("a", .vdict 1 [("b", .vdict 2 [("type", .vstr "string"),
            ("description", .vstr "d")])])]
      ≠ create_pydantic_model_from_template
          [("a", .vdict 3 [("b", .vdict 4 [("type", .vstr "string"),
              ("description", .vstr "d")])])] := by
  constructor
  · rfl
  · intro h
    have h2 := congrArg genNameAtA h
    have h3 : "RadiologyReport" ++ "_" ++ toString (1 : Nat)
        = "RadiologyReport" ++ "_" ++ toString (3 : Nat) := h2
    exact absurd h3 (by decide)

theorem hasKey_eraseIdEntries : ∀ (es : List (String × PyValue)) (k : String),
    hasKey (eraseIdEntries es) k = hasKey es k := by
  intro es k
  induction es with
  | nil => rfl
  | cons p r ih =>
    obtain ⟨k1, v1⟩ := p
    simp only [eraseIdEntries, hasKey, List.any_cons] at ih ⊢
    rw [ih]

theorem dictGet_eraseIdEntries : ∀ (es : List (String × PyValue)) (k : String),
    dictGet (eraseIdEntries es) k = (dictGet es k).map eraseId := by
  intro es k
  induction es with
  | nil => rfl
  | cons p r ih =>
    obtain ⟨k1, v1⟩ := p
    by_cases h : (k1 == k) = true
    · simp [eraseIdEntries, dictGet, List.find?, h]
    · rw [Bool.not_eq_true] at h
      simp only [eraseIdEntries, dictGet, List.find?, h] at ih ⊢
      exact ih

mutual

theorem eraseId_idem : ∀ v : PyValue, eraseId (eraseId v) = eraseId v
  | .vnone => rfl
  | .vbool _ => rfl
  | .vint _ => rfl
  | .vstr _ => rfl
  | .vlist xs => by rw [eraseId, eraseId, eraseIdList_idem xs]
  | .vdict i es => by rw [eraseId, eraseId, eraseIdEntries_idem es]

theorem eraseIdList_idem : ∀ xs : List PyValue, eraseIdList (eraseIdList xs) = eraseIdList xs
  | [] => rfl
  | v :: r => by rw [eraseIdList, eraseIdList, eraseId_idem v, eraseIdList_idem r]

theorem eraseIdEntries_idem :
    ∀ es : List (String × PyValue), eraseIdEntries (eraseIdEntries es) = eraseIdEntries es
  | [] => rfl
  | (k, v) :: r => by rw [eraseIdEntries, eraseIdEntries, eraseId_idem v, eraseIdEntries_idem r]

end

theorem eraseGenNameFields_length : ∀ l : List (String × PFieldDef),
    (eraseGenNameFields l).length = l.length := by
  intro l
  induction l with
  | nil => rfl
  | cons p r ih =>
    obtain ⟨k, f⟩ := p
    simp [eraseGenNameFields, ih]

mutual

theorem build_field_type_eraseId (mn : String) :
    ∀ v : PyValue,
      eraseGenName (build_field_type mn (eraseId v)) = eraseGenName (build_field_type mn v)
  | .vnone => rfl
  | .vbool _ => rfl
  | .vint _ => rfl
  | .vstr _ => rfl
  | .vlist _ => rfl
  | .vdict i es => by
    rw [eraseId]
    by_cases hk : (hasKey es "type" && hasKey es "description") = true
    · have hk2 : (hasKey (eraseIdEntries es) "type"
          && hasKey (eraseIdEntries es) "description") = true := by
        rw [hasKey_eraseIdEntries, hasKey_eraseIdEntries]
        exact hk
      rw [build_field_type, build_field_type]
      simp only [hk, hk2, if_true, eraseGenName, dictGet_eraseIdEntries]
      cases dictGet es "description" with
      | none => rfl
      | some d => simp [eraseId_idem d]
    · rw [Bool.not_eq_true] at hk
      have hk2 : (hasKey (eraseIdEntries es) "type"
          && hasKey (eraseIdEntries es) "description") = false := by
        rw [hasKey_eraseIdEntries, hasKey_eraseIdEntries]
        exact hk
      rw [build_field_type, build_field_type]
      simp only [hk, hk2, Bool.false_eq_true, if_false]
      have hfields := build_nested_fields_eraseId mn es
      have hlen : (build_nested_fields mn (eraseIdEntries es)).length
          = (build_nested_fields mn es).length := by
        rw [← eraseGenNameFields_length, ← eraseGenNameFields_length (build_nested_fields mn es),
          hfields]
      by_cases hemp : (build_nested_fields mn es).isEmpty = true
      · have hemp2 : (build_nested_fields mn (eraseIdEntries es)).isEmpty = true := by
          rw [List.isEmpty_iff_length_eq_zero] at hemp ⊢
          rw [hlen]
          exact hemp
        simp [hemp, hemp2]
      · rw [Bool.not_eq_true] at hemp
        have hemp2 : (build_nested_fields mn (eraseIdEntries es)).isEmpty = false := by
          rw [List.isEmpty_eq_false_iff_exists_mem]
          rw [List.isEmpty_eq_false_iff_exists_mem] at hemp
          obtain ⟨x, hx⟩ := hemp
          have : (build_nested_fields mn (eraseIdEntries es)) ≠ [] := by
            intro hnil
            rw [hnil] at hlen
            simp only [List.length_nil] at hlen
            have := List.length_pos_of_mem hx
            omega
          exact List.exists_mem_of_ne_nil _ this
        simp only [hemp, hemp2, Bool.false_eq_true, if_false, eraseGenName]
        rw [hfields]

theorem build_nested_fields_eraseId (mn : String) :
    ∀ es : List (String × PyValue),
      eraseGenNameFields (build_nested_fields mn (eraseIdEntries es))
        = eraseGenNameFields (build_nested_fields mn es)
  | [] => rfl
  | (k, v) :: r => by
    rw [eraseIdEntries]
    cases v with
    | vnone => exact build_nested_fields_eraseId mn r
    | vbool b => exact build_nested_fields_eraseId mn r
    | vint n => exact build_nested_fields_eraseId mn r
    | vstr s => exact build_nested_fields_eraseId mn r
    | vlist xs => exact build_nested_fields_eraseId mn r
    | vdict i es2 =>
      rw [eraseId, build_nested_fields, build_nested_fields, eraseGenNameFields,
        eraseGenNameFields]
      rw [build_nested_fields_eraseId mn r]
      have hv := build_field_type_eraseId mn (.vdict i es2)
      rw [eraseId] at hv
      rw [hv]

end

/-- C2 as amended: compilation is deterministic up to generated type
names — two equal-but-distinct copies of a structure (equal identity
erasures) compile to schemas with the same field names, nesting,
optionality, defaults and descriptions; the generated nested-model names,
keyed by object identity, are the only part that may differ (recompiling
the very same structure object trivially reproduces the identical schema,
compilation being a pure function of the structure). -/
theorem c2_deterministic_up_to_names (mn : String)
    (s1 s2 : List (String × PyValue))
    (h : eraseIdEntries s1 = eraseIdEntries s2) :
    eraseModelGenNames (create_pydantic_model_from_template s1 mn)
      = eraseModelGenNames (create_pydantic_model_from_template s2 mn) := by
  rw [eraseModelGenNames, eraseModelGenNames, create_pydantic_model_from_template,
    create_pydantic_model_from_template]
  simp only []
  congr 1
  induction s1 generalizing s2 with
  | nil =>
    cases s2 with
    | nil => rfl
    | cons p r => exact absurd h (by cases p; simp [eraseIdEntries])
  | cons p r ih =>
    cases s2 with
    | nil => exact absurd h (by cases p; simp [eraseIdEntries])
    | cons q t =>
      obtain ⟨k1, v1⟩ := p
      obtain ⟨k2, v2⟩ := q
      rw [eraseIdEntries, eraseIdEntries] at h
      injection h with h1 h2
      injection h1 with hk hv
      subst hk
      rw [List.map_cons, List.map_cons, eraseGenNameFields, eraseGenNameFields]
      rw [ih t h2]
      have hv1 := build_field_type_eraseId mn v1
      have hv2 := build_field_type_eraseId mn v2
      rw [hv] at hv1
      rw [← hv1, hv2]

/-- Witness for the amended C2 at the two concrete copies of the
counterexample: their name-erased compiled schemas coincide. -/
theorem c2_deterministic_up_to_names_witness :
    eraseModelGenNames (create_pydantic_model_from_template
        [("a", .vdict 1 [("b", .vdict 2 [("type", .vstr "string"),
            ("description", .vstr "d")])])] "RadiologyReport")
      = eraseModelGenNames (create_pydantic_model_from_template
          [("a", .vdict 3 [("b", .vdict 4 [("type", .vstr "string"),
              ("description", .vstr "d")])])] "RadiologyReport") :=
  c2_deterministic_up_to_names "RadiologyReport"
    [("a", .vdict 1 [("b", .vdict 2 [("type", .vstr "string"), ("description", .vstr "d")])])]
    [("a", .vdict 3 [("b", .vdict 4 [("type", .vstr "string"), ("description", .vstr "d")])])]
    rfl

end Radynstruct
